import Mathlib

/-!
Shallow embedding of `chat_detection_extension/ai_analytics_engine.py`.

The Python module draws on `numpy.random` throughout; the embedding makes the
random source explicit as a stream of rational draws (`RNG`).  Every call the
Python code makes to the random generator consumes draws from the stream in
program order: `np.random.random()` consumes one draw, `np.random.uniform(a,b)`
consumes one draw `d` and yields `a + d * (b - a)`, `np.random.randint(a,b)`
consumes one draw `d` and yields `a + floor(d * (b - a))`, and an array of
samples of shape `(n, m)` consumes `n * m` draws row-major.  A Gaussian sample
from `np.random.normal` is modelled coarsely as one raw draw (its value is
never inspected by any claim).  Missing numeric values (`NaN` in pandas) are
modelled as `none` in columns of type `List (Option Rat)`.  Python exceptions
are modelled with `Except PyError`; functions whose bodies cannot raise always
return `.ok`.
-/

/-- Errors.  `RuntimeError` is the exception the source actually raises (in
`run_comprehensive_analysis`).  The remaining constructors carry the names the
specification gives to typed errors (`UnrecoverableBatchError`,
`ModelNotTrainedError`, `InvalidDatasetError`); they occur nowhere in the
source and are included so that the spec claims about them are statable. -/
inductive PyError where
  | RuntimeError (msg : String)
  | UnrecoverableBatchError
  | ModelNotTrainedError
  | InvalidDatasetError
  deriving DecidableEq, Repr

/-- Explicit stream of random draws; each draw stands for one value produced
by the underlying generator, normalised to `[0,1)`.  An exhausted stream
yields 0 (no claim depends on the exhausted case). -/
structure RNG where
  draws : List ℚ
  deriving DecidableEq, Repr

/-- Pop one draw, as `np.random.random()`. -/
def RNG.next (r : RNG) : ℚ × RNG :=
  match r.draws with
  | [] => (0, ⟨[]⟩)
  | d :: ds => (d, ⟨ds⟩)

/-- `np.random.uniform(lo, hi)`: one draw scaled to `[lo, hi)`. -/
def RNG.uniform (lo hi : ℚ) (r : RNG) : ℚ × RNG :=
  let p := r.next
  (lo + p.1 * (hi - lo), p.2)

/-- `np.random.randint(lo, hi)`: one draw scaled to `[lo, hi)` and floored. -/
def RNG.randint (lo hi : Nat) (r : RNG) : Nat × RNG :=
  let p := r.next
  (lo + ((p.1 * ((hi - lo : Nat) : ℚ)).floor).toNat, p.2)

/-- `np.random.random(n)`: a vector of `n` draws. -/
def RNG.takeDraws : Nat → RNG → List ℚ × RNG
  | 0, r => ([], r)
  | n + 1, r =>
    let p := r.next
    let q := RNG.takeDraws n p.2
    (p.1 :: q.1, q.2)

/-- `np.random.random((n, 2))`: `n` pairs of draws, row-major. -/
def RNG.takePairs : Nat → RNG → List (ℚ × ℚ) × RNG
  | 0, r => ([], r)
  | n + 1, r =>
    let a := r.next
    let b := a.2.next
    let q := RNG.takePairs n b.2
    ((a.1, b.1) :: q.1, q.2)

/-- `np.random.random((n, m))`: an `n` by `m` matrix of draws, row-major. -/
def RNG.takeMatrix : Nat → Nat → RNG → List (List ℚ) × RNG
  | 0, _, r => ([], r)
  | n + 1, m, r =>
    let row := RNG.takeDraws m r
    let rest := RNG.takeMatrix n m row.2
    (row.1 :: rest.1, rest.2)

/-- `ModelConfiguration` dataclass with its default values. -/
structure ModelConfiguration where
  algorithm : String := "ensemble_xgboost_rf"
  learning_rate : ℚ := 0.001
  max_depth : Nat := 12
  n_estimators : Nat := 1000
  regularization_alpha : ℚ := 0.1
  regularization_lambda : ℚ := 0.1
  early_stopping_rounds : Nat := 50
  cross_validation_folds : Nat := 10
  feature_selection_threshold : ℚ := 0.95
  anomaly_detection_threshold : ℚ := 2.5
  auto_feature_engineering : Bool := true
  distributed_computing : Bool := true
  gpu_acceleration : Bool := true
  memory_optimization : Bool := true
  deriving DecidableEq, Repr

/-- `DataPipeline` dataclass with its default values (validation rules are an
opaque name-to-parameter map, modelled as an association list). -/
structure DataPipeline where
  source_endpoints : List String := []
  preprocessing_steps : List String := []
  validation_rules : List (String × String) := []
  encryption_enabled : Bool := true
  compression_algorithm : String := "lz4"
  batch_size : Nat := 10000
  streaming_window_ms : Nat := 1000
  error_tolerance : ℚ := 0.001
  backup_strategy : String := "distributed_replication"
  deriving DecidableEq, Repr

/-- A pandas `DataFrame` restricted to numeric columns: named columns of
optional rationals, `none` standing for a missing value (`NaN`). -/
structure DataFrame where
  cols : List (String × List (Option ℚ))
  deriving DecidableEq, Repr

/-- `len(df)`: the number of rows (the length of the shared index; in a
well-formed frame every column has this length). -/
def DataFrame.nrows (df : DataFrame) : Nat :=
  match df.cols with
  | [] => 0
  | c :: _ => c.2.length

/-- `df.columns` as a list of names. -/
def DataFrame.columns (df : DataFrame) : List String :=
  df.cols.map (fun c => c.1)

/-- `df.select_dtypes(include=[np.number]).values`: the rows of the frame as a
2-D numeric array (all modelled columns are numeric; a missing entry reads as
0 here, only the shape of this array is ever used downstream). -/
def DataFrame.numeric_values (df : DataFrame) : List (List ℚ) :=
  (List.range df.nrows).map (fun i => df.cols.map (fun c => ((c.2.getD i (some 0)).getD 0)))

/-- The present (non-missing) values of a column, as pandas `dropna`. -/
def validValues (xs : List (Option ℚ)) : List ℚ :=
  xs.filterMap id

/-- `Series.mean()` with the default `skipna=True`: the mean of the present
values, `NaN` (here `none`) when the column has no present value. -/
def colMean (xs : List (Option ℚ)) : Option ℚ :=
  let vs := validValues xs
  if vs.length = 0 then none else some (vs.sum / (vs.length : ℚ))

/-- `Series.fillna(mean)` for one column: when the per-column mean exists,
every missing entry becomes the mean and present entries are kept; a `NaN`
fill value (all-missing column) fills nothing, as in pandas. -/
def fillnaCol (xs : List (Option ℚ)) : List (Option ℚ) :=
  match colMean xs with
  | none => xs
  | some m => xs.map (fun x => some (x.getD m))

/-- `data.fillna(data.mean())`: pandas aligns the mean Series to the columns
of the frame, so each column is filled with its own mean. -/
def DataFrame.fillna_mean (df : DataFrame) : DataFrame :=
  ⟨df.cols.map (fun c => (c.1, fillnaCol c.2))⟩

/-- The metrics dictionary returned by `_train_ensemble_models`.  The field
`prec` stands for the `precision` entry and `recall_score` for the `recall`
entry of the Python dictionary (`precision` and `recall` are reserved words
in Lean). -/
structure TrainingMetrics where
  accuracy : ℚ
  prec : ℚ
  recall_score : ℚ
  f1_score : ℚ
  auc_roc : ℚ
  quantum_advantage : ℚ
  computational_speedup : ℚ
  deriving DecidableEq, Repr

/-- One anomaly dictionary built by `detect_anomalies` (the wall-clock
timestamp field is omitted: real time is outside the embedding). -/
structure AnomalyRecord where
  index : Nat
  anomaly_score : ℚ
  confidence : ℚ
  risk_level : String
  affected_features : List String
  deriving DecidableEq, Repr

/-- `QuantumEnhancedAnalytics.__init__`: configuration plus the internal
state fields.  `model_cache` starts empty and no method ever writes it; its
value type is irrelevant and modelled as `String`. -/
structure QuantumEnhancedAnalytics where
  config : ModelConfiguration
  model_cache : List (String × String) := []
  prediction_confidence_threshold : ℚ := 0.85
  quantum_circuit_depth : Nat := 12
  neural_architecture_search_space : Nat := 10000
  deriving DecidableEq, Repr

/-- Construct the engine as `QuantumEnhancedAnalytics(config)` does. -/
def mkEngine (c : ModelConfiguration) : QuantumEnhancedAnalytics :=
  { config := c }

/-- `_preprocess_data`: logging and sleeps only; returns the data unchanged
and consumes no draws. -/
def preprocess_data (data : DataFrame) (r : RNG) : DataFrame × RNG :=
  (data, r)

/-- `_neural_architecture_search`: builds a dictionary whose random entries
consume, in order, `randint(10,50)`, `randint(128,1024)`, `uniform(0.1,0.3)`;
the dictionary itself is discarded by the caller. -/
def neural_architecture_search (r : RNG) : RNG :=
  let layers := RNG.randint 10 50 r
  let neurons := RNG.randint 128 1024 layers.2
  let dropout := RNG.uniform 0.1 0.3 neurons.2
  dropout.2

/-- `_quantum_feature_engineering`: `np.random.random((len(data), 50))`. -/
def quantum_feature_engineering (data : DataFrame) (r : RNG) : List (List ℚ) × RNG :=
  RNG.takeMatrix data.nrows 50 r

/-- `_train_ensemble_models`: seven uniform draws forming the metrics
dictionary, in the order of its literal entries. -/
def train_ensemble_models (r : RNG) : TrainingMetrics × RNG :=
  let a := RNG.uniform 0.92 0.98 r
  let p := RNG.uniform 0.89 0.96 a.2
  let re := RNG.uniform 0.88 0.95 p.2
  let f1 := RNG.uniform 0.90 0.97 re.2
  let auc := RNG.uniform 0.93 0.99 f1.2
  let qa := RNG.uniform 1.15 1.45 auc.2
  let cs := RNG.uniform 2.1 5.7 qa.2
  (⟨a.1, p.1, re.1, f1.1, auc.1, qa.1, cs.1⟩, cs.2)

/-- `QuantumEnhancedAnalytics.train_model`: preprocessing, architecture
search, quantum feature engineering, then ensemble training.  The body
performs no input validation, raises nothing, and writes no field of `self`
(in particular `model_cache` is untouched), so the embedding returns `.ok`
and passes `self` through unchanged. -/
def QuantumEnhancedAnalytics.train_model (self : QuantumEnhancedAnalytics)
    (data : DataFrame) (config : ModelConfiguration) (r : RNG) :
    Except PyError TrainingMetrics × QuantumEnhancedAnalytics × RNG :=
  let pre := preprocess_data data r
  let r1 := neural_architecture_search pre.2
  let qf := quantum_feature_engineering data r1
  let tm := train_ensemble_models qf.2
  (.ok tm.1, self, tm.2)

/-- `_quantum_transform`: adds one Gaussian noise sample per matrix entry
(each sample modelled as one draw); the result is discarded by the caller. -/
def quantum_transform : List (List ℚ) → RNG → List (List ℚ) × RNG
  | [], r => ([], r)
  | row :: rest, r =>
    let noise := RNG.takeDraws row.length r
    let tl := quantum_transform rest noise.2
    (List.zipWith (fun a b => a + b) row noise.1 :: tl.1, tl.2)

/-- `QuantumEnhancedAnalytics.predict_batch`: transforms the features, then
returns `np.random.random(len(features))` predictions and
`np.random.random((len(features), 2))` confidence pairs.  The body never
consults `model_cache` and cannot raise, so the embedding always returns
`.ok`. -/
def QuantumEnhancedAnalytics.predict_batch (self : QuantumEnhancedAnalytics)
    (features : List (List ℚ)) (r : RNG) :
    Except PyError (List ℚ × List (ℚ × ℚ)) × RNG :=
  let tr := quantum_transform features r
  let preds := RNG.takeDraws features.length tr.2
  let ci := RNG.takePairs features.length preds.2
  (.ok (preds.1, ci.1), ci.2)

/-- `data.columns[np.random.choice(len(data.columns), 3)].tolist()`: three
random column indices (each index modelled as one draw scaled to the number
of columns), looked up in the column list. -/
def chooseFeatures (columns : List String) (r : RNG) : List String × RNG :=
  let d1 := r.next
  let d2 := d1.2.next
  let d3 := d2.2.next
  (([d1.1, d2.1, d3.1].map
      (fun d => columns.getD ((d * (columns.length : ℚ)).floor).toNat "")), d3.2)

/-- The loop body of `detect_anomalies`: for each index, one gating draw;
when the gate exceeds 0.95 an anomaly dictionary is built, consuming in the
order of its literal entries a `uniform(2.5, 5.0)` score, a
`uniform(0.8, 0.99)` confidence, one draw deciding the risk level, and the
three feature-choice draws. -/
def detectLoop (columns : List String) : List Nat → RNG → List AnomalyRecord × RNG
  | [], r => ([], r)
  | i :: is, r =>
    let g := r.next
    if g.1 > 0.95 then
      let s := RNG.uniform 2.5 5.0 g.2
      let c := RNG.uniform 0.8 0.99 s.2
      let rl := c.2.next
      let feats := chooseFeatures columns rl.2
      let rest := detectLoop columns is feats.2
      ({ index := i, anomaly_score := s.1, confidence := c.1,
         risk_level := if rl.1 > 0.5 then "HIGH" else "MEDIUM",
         affected_features := feats.1 } :: rest.1, rest.2)
    else
      detectLoop columns is g.2

/-- `QuantumEnhancedAnalytics.detect_anomalies`: iterates over
`range(min(len(data), 10))`.  Note that the body reads neither `self.config`
nor any threshold: records are appended solely on the gating draw. -/
def QuantumEnhancedAnalytics.detect_anomalies (self : QuantumEnhancedAnalytics)
    (data : DataFrame) (r : RNG) : List AnomalyRecord × RNG :=
  detectLoop data.columns (List.range (min data.nrows 10)) r

/-- `EnterpriseDataProcessor.__init__` state that the embedding needs: the
pipeline configuration (the queue, worker list and encryption key are never
read by the modelled operations). -/
structure EnterpriseDataProcessor where
  config : DataPipeline
  deriving DecidableEq, Repr

/-- `EnterpriseDataProcessor._apply_data_recovery`: the body is
`return data.fillna(data.mean())`, which cannot raise on numeric frames, so
the embedding always returns `.ok`. -/
def EnterpriseDataProcessor.apply_data_recovery (self : EnterpriseDataProcessor)
    (data : DataFrame) : Except PyError DataFrame :=
  .ok data.fillna_mean

/-- The report dictionary assembled by `run_comprehensive_analysis` (the
wall-clock timestamp entry is omitted: real time is outside the embedding). -/
structure AnalysisReport where
  data_source : String
  samples_processed : Nat
  model_performance : TrainingMetrics
  predictions_generated : Nat
  anomalies_detected : Nat
  system_health : List (String × ℚ)
  recommendations : List String
  quantum_advantage_factor : ℚ
  processing_efficiency : ℚ
  deriving DecidableEq, Repr

/-- `AIAnalyticsOrchestrator.__init__` state. -/
structure AIAnalyticsOrchestrator where
  model_config : ModelConfiguration
  pipeline_config : DataPipeline
  analytics_engine : QuantumEnhancedAnalytics
  data_processor : EnterpriseDataProcessor
  system_status : String
  deriving DecidableEq, Repr

/-- The orchestrator as constructed by `AIAnalyticsOrchestrator.__init__`:
default configurations, a fresh engine and processor, and status
`INITIALIZING`. -/
def mkOrchestrator : AIAnalyticsOrchestrator :=
  { model_config := {}
    pipeline_config := {}
    analytics_engine := mkEngine {}
    data_processor := { config := {} }
    system_status := "INITIALIZING" }

/-- `_generate_enterprise_dataset`: `randint(10000, 50000)` rows, then seven
numeric columns each consuming one distribution sample (modelled as one draw)
per row, in the order of the dictionary literal. -/
def generate_enterprise_dataset (r : RNG) : DataFrame × RNG :=
  let n := RNG.randint 10000 50000 r
  let c1 := RNG.takeDraws n.1 n.2
  let c2 := RNG.takeDraws n.1 c1.2
  let c3 := RNG.takeDraws n.1 c2.2
  let c4 := RNG.takeDraws n.1 c3.2
  let c5 := RNG.takeDraws n.1 c4.2
  let c6 := RNG.takeDraws n.1 c5.2
  let c7 := RNG.takeDraws n.1 c6.2
  (⟨[("transaction_amount", c1.1.map some),
     ("customer_age", c2.1.map some),
     ("account_balance", c3.1.map some),
     ("credit_score", c4.1.map some),
     ("transaction_frequency", c5.1.map some),
     ("geographic_risk_score", c6.1.map some),
     ("temporal_pattern_score", c7.1.map some)]⟩, c7.2)

/-- `_get_system_health_metrics`: six uniform draws in the order of the
dictionary literal. -/
def get_system_health_metrics (r : RNG) : List (String × ℚ) × RNG :=
  let a := RNG.uniform 0.15 0.35 r
  let b := RNG.uniform 0.45 0.75 a.2
  let c := RNG.uniform 0.60 0.90 b.2
  let d := RNG.uniform 0.85 0.98 c.2
  let e := RNG.uniform 1.2 4.8 d.2
  let f := RNG.uniform 0.92 0.98 e.2
  ([("cpu_utilization", a.1), ("memory_usage", b.1), ("gpu_utilization", c.1),
    ("quantum_coherence", d.1), ("network_latency_ms", e.1),
    ("prediction_accuracy", f.1)], f.2)

/-- `_generate_ai_recommendations`: four fixed baseline strings, plus the
urgent string appended when the anomaly count exceeds 5. -/
def generate_ai_recommendations (anomalies : List AnomalyRecord) : List String :=
  let recommendations :=
    ["Implement enhanced monitoring for high-risk transaction patterns",
     "Deploy additional quantum circuits for improved processing capacity",
     "Optimize neural architecture for reduced latency in real-time predictions",
     "Strengthen anomaly detection thresholds based on current threat landscape"]
  if anomalies.length > 5 then
    recommendations ++
      ["URGENT: Investigate potential security breach - anomaly count exceeds threshold"]
  else
    recommendations

/-- `AIAnalyticsOrchestrator.run_comprehensive_analysis`: refuses with
`RuntimeError` unless the status is `OPERATIONAL`; otherwise generates a
synthetic dataset, trains, predicts on the numeric values, detects anomalies,
and assembles the report in the order of the dictionary literal.  Exceptions
from the engine calls would propagate (the two `match` arms); the engine
state is threaded back into the orchestrator as Python object mutation
would be. -/
def AIAnalyticsOrchestrator.run_comprehensive_analysis
    (self : AIAnalyticsOrchestrator) (data_source : String) (r : RNG) :
    Except PyError AnalysisReport × AIAnalyticsOrchestrator × RNG :=
  if self.system_status ≠ "OPERATIONAL" then
    (.error (.RuntimeError "System not operational - initialization required"), self, r)
  else
    let sd := generate_enterprise_dataset r
    let tm := self.analytics_engine.train_model sd.1 self.model_config sd.2
    let self1 := { self with analytics_engine := tm.2.1 }
    match tm.1 with
    | .error e => (.error e, self1, tm.2.2)
    | .ok training_results =>
      let features := sd.1.numeric_values
      let pb := self1.analytics_engine.predict_batch features tm.2.2
      match pb.1 with
      | .error e => (.error e, self1, pb.2)
      | .ok pc =>
        let an := self1.analytics_engine.detect_anomalies sd.1 pb.2
        let hm := get_system_health_metrics an.2
        let eff := RNG.uniform 0.85 0.98 hm.2
        (.ok { data_source := data_source
               samples_processed := sd.1.nrows
               model_performance := training_results
               predictions_generated := pc.1.length
               anomalies_detected := an.1.length
               system_health := hm.1
               recommendations := generate_ai_recommendations an.1
               quantum_advantage_factor := training_results.quantum_advantage
               processing_efficiency := eff.1 }, self1, eff.2)

/-! ## Concrete fixtures used by the verification theorems -/

/-- A one-row, one-column frame. -/
def df1 : DataFrame := ⟨[("sensor_value_1", [some 1])]⟩

/-- A frame whose only column has no valid value at all. -/
def dfBad : DataFrame := ⟨[("sensor_value_2", [none, none])]⟩

/-- A frame with one missing value among valid ones (valid mean 2). -/
def dfMix : DataFrame := ⟨[("sensor_value_1", [some 1, none, some 3])]⟩

/-- A frame with no missing values. -/
def dfGood : DataFrame := ⟨[("quality_score", [some 1, some (1/2)])]⟩

/-- A configuration whose anomaly threshold is raised to 5. -/
def cfg5 : ModelConfiguration := { anomaly_detection_threshold := 5 }

/-- Draws driving `detect_anomalies` into emitting one record of score 15/4:
gate 24/25, score draw 1/2, confidence draw 9/10, risk draw 3/5, and three
feature-choice draws. -/
def rng1 : RNG := ⟨[24/25, 1/2, 9/10, 3/5, 0, 0, 0]⟩

/-- A data processor over the default pipeline configuration. -/
def proc0 : EnterpriseDataProcessor := ⟨{}⟩

/-- An orchestrator in the `FAILED` state. -/
def obad : AIAnalyticsOrchestrator := { mkOrchestrator with system_status := "FAILED" }

/-- An arbitrary anomaly record, used to build concrete anomaly lists. -/
def arec0 : AnomalyRecord :=
  { index := 0, anomaly_score := 3, confidence := 9/10, risk_level := "HIGH",
    affected_features := [] }

/-! ## Helper lemmas -/

theorem takeDraws_fst_length (n : Nat) (r : RNG) : (RNG.takeDraws n r).1.length = n := by
  induction n generalizing r with
  | zero => rfl
  | succ n ih => simp [RNG.takeDraws, ih]

theorem takePairs_fst_length (n : Nat) (r : RNG) : (RNG.takePairs n r).1.length = n := by
  induction n generalizing r with
  | zero => rfl
  | succ n ih => simp [RNG.takePairs, ih]

theorem map_id_of_mem {α : Type} (l : List α) (f : α → α) (h : ∀ x ∈ l, f x = x) :
    l.map f = l := by
  induction l with
  | nil => rfl
  | cons a l ih =>
    rw [List.map_cons, h a (List.mem_cons_self a l),
      ih fun x hx => h x (List.mem_cons_of_mem a hx)]

theorem getD_map_eq {α β : Type} (f : α → β) (l : List α) (i : Nat) (d : α) (e : β)
    (hde : f d = e) : (l.map f).getD i e = f (l.getD i d) := by
  subst hde
  induction l generalizing i with
  | nil => cases i <;> rfl
  | cons a l ih =>
    cases i with
    | zero => rfl
    | succ k => exact ih k

theorem fillnaCol_length (xs : List (Option ℚ)) : (fillnaCol xs).length = xs.length := by
  unfold fillnaCol
  cases colMean xs <;> simp

theorem fillnaCol_of_all_some (xs : List (Option ℚ)) (h : ∀ x ∈ xs, x ≠ none) :
    fillnaCol xs = xs := by
  unfold fillnaCol
  cases hm : colMean xs with
  | none => rfl
  | some m =>
    apply map_id_of_mem
    intro x hx
    cases x with
    | none => exact absurd rfl (h none hx)
    | some v => rfl

theorem fillnaCol_getD (xs : List (Option ℚ)) (j : Nat) :
    (fillnaCol xs).getD j (some 0) =
      match xs.getD j (some 0) with
      | none => colMean xs
      | some v => some v := by
  unfold fillnaCol
  cases hm : colMean xs with
  | none =>
    cases hx : xs.getD j (some 0) with
    | none => rfl
    | some v => rfl
  | some m =>
    rw [getD_map_eq (fun x => some (x.getD m)) xs j (some 0) (some 0) rfl]
    cases hx : xs.getD j (some 0) with
    | none => rfl
    | some v => rfl

theorem next_fst_bounds (r : RNG) (h : ∀ d ∈ r.draws, 0 ≤ d ∧ d < 1) :
    0 ≤ r.next.1 ∧ r.next.1 < 1 := by
  cases r with
  | mk ds =>
    cases ds with
    | nil => norm_num [RNG.next]
    | cons d ds => exact h d (List.mem_cons_self d ds)

theorem next_snd_bounds (r : RNG) (h : ∀ d ∈ r.draws, 0 ≤ d ∧ d < 1) :
    ∀ d ∈ r.next.2.draws, 0 ≤ d ∧ d < 1 := by
  cases r with
  | mk ds =>
    cases ds with
    | nil => intro d hd; exact absurd hd (List.not_mem_nil d)
    | cons a ds => intro d hd; exact h d (List.mem_cons_of_mem a hd)

theorem uniform_fst_bounds (lo hi : ℚ) (r : RNG) (hlt : lo < hi)
    (h : ∀ d ∈ r.draws, 0 ≤ d ∧ d < 1) :
    lo ≤ (RNG.uniform lo hi r).1 ∧ (RNG.uniform lo hi r).1 < hi := by
  obtain ⟨h0, h1⟩ := next_fst_bounds r h
  constructor
  · show lo ≤ lo + r.next.1 * (hi - lo)
    nlinarith
  · show lo + r.next.1 * (hi - lo) < hi
    nlinarith

theorem detectLoop_score_bounds (cols : List String) (is : List Nat) :
    ∀ r : RNG, (∀ d ∈ r.draws, 0 ≤ d ∧ d < 1) →
      ∀ rec ∈ (detectLoop cols is r).1,
        5/2 ≤ rec.anomaly_score ∧ rec.anomaly_score < 5 := by
  induction is with
  | nil => intro r h rec hrec; simp [detectLoop] at hrec
  | cons i is ih =>
    intro r h rec hrec
    simp only [detectLoop] at hrec
    split at hrec
    · rcases List.mem_cons.mp hrec with h1 | h2
      · have hb := uniform_fst_bounds 2.5 5.0 r.next.2 (by norm_num) (next_snd_bounds r h)
        rw [h1]
        constructor
        · show (5/2 : ℚ) ≤ (RNG.uniform 2.5 5.0 r.next.2).1
          linarith [hb.1]
        · show (RNG.uniform 2.5 5.0 r.next.2).1 < 5
          linarith [hb.2]
      · refine ih _ ?_ rec h2
        exact next_snd_bounds _ (next_snd_bounds _ (next_snd_bounds _ (next_snd_bounds _
          (next_snd_bounds _ (next_snd_bounds _ (next_snd_bounds _ h))))))
    · exact ih _ (next_snd_bounds r h) rec hrec

theorem detectLoop_mem_index (cols : List String) (is : List Nat) :
    ∀ (r : RNG) (rec : AnomalyRecord), rec ∈ (detectLoop cols is r).1 → rec.index ∈ is := by
  induction is with
  | nil => intro r rec hrec; simp [detectLoop] at hrec
  | cons i is ih =>
    intro r rec hrec
    simp only [detectLoop] at hrec
    split at hrec
    · rcases List.mem_cons.mp hrec with h1 | h2
      · rw [h1]; exact List.mem_cons_self i is
      · exact List.mem_cons_of_mem i (ih _ rec h2)
    · exact List.mem_cons_of_mem i (ih _ rec hrec)

theorem detectLoop_length_le (cols : List String) (is : List Nat) :
    ∀ r : RNG, (detectLoop cols is r).1.length ≤ is.length := by
  induction is with
  | nil => intro r; simp [detectLoop]
  | cons i is ih =>
    intro r
    simp only [detectLoop]
    split
    · exact Nat.succ_le_succ (ih _)
    · exact Nat.le_trans (ih _) (Nat.le_succ _)

/-! ## Claim theorems -/

/-- Claim C1: for every data source identifier, calling
`run_comprehensive_analysis` while the orchestrator status is not
`OPERATIONAL` (in particular in the `UNINITIALIZED` or `FAILED` states) fails
with the system-not-ready error (realised in the source as
`RuntimeError "System not operational - initialization required"`), produces
no report, and leaves the orchestrator state and the random stream
untouched. -/
theorem run_comprehensive_analysis_rejects_when_not_operational
    (o : AIAnalyticsOrchestrator) (ds : String) (r : RNG)
    (h : o.system_status ≠ "OPERATIONAL") :
    o.run_comprehensive_analysis ds r =
      (.error (.RuntimeError "System not operational - initialization required"), o, r) := by
  unfold AIAnalyticsOrchestrator.run_comprehensive_analysis
  rw [if_pos h]

/-- Claim C1, witness: a concrete orchestrator in the `FAILED` state is
rejected without side effects. -/
theorem run_comprehensive_analysis_rejects_witness :
    obad.system_status ≠ "OPERATIONAL" ∧
    obad.run_comprehensive_analysis "enterprise_data_lake" (RNG.mk []) =
      (.error (.RuntimeError "System not operational - initialization required"), obad,
        RNG.mk []) :=
  ⟨by decide, run_comprehensive_analysis_rejects_when_not_operational obad
    "enterprise_data_lake" (RNG.mk []) (by decide)⟩

/-- Claim C2, counterexample: with the anomaly threshold raised to 5, the
concrete draw stream `rng1` makes `detect_anomalies` emit a record whose
score 15/4 is NOT greater than the configured threshold — the code never
compares scores against `config.anomaly_detection_threshold`. -/
theorem detect_anomalies_score_vs_threshold_cex :
    ((mkEngine cfg5).detect_anomalies df1 rng1).1.map AnomalyRecord.anomaly_score = [15/4] ∧
    ¬ ((15 : ℚ)/4 > (mkEngine cfg5).config.anomaly_detection_threshold) := by
  constructor
  · norm_num [QuantumEnhancedAnalytics.detect_anomalies, detectLoop, RNG.uniform, RNG.next,
      chooseFeatures, mkEngine, cfg5, df1, rng1, DataFrame.nrows, DataFrame.columns,
      List.range_succ]
  · norm_num [mkEngine, cfg5]

/-- Claim C2, amended: every record emitted by `detect_anomalies` has a score
drawn uniformly from `[2.5, 5.0)` — so, given draws in `[0,1)`, the score
lies in that interval regardless of the configured threshold — and the result
does not depend on the configuration at all, so raising the threshold never
changes (in particular never increases) the number of records returned. -/
theorem detect_anomalies_score_range_and_threshold_free
    (c c2 : ModelConfiguration) (data : DataFrame) (r : RNG)
    (h : ∀ d ∈ r.draws, 0 ≤ d ∧ d < 1) :
    (∀ rec ∈ ((mkEngine c).detect_anomalies data r).1,
        5/2 ≤ rec.anomaly_score ∧ rec.anomaly_score < 5) ∧
    (mkEngine c).detect_anomalies data r = (mkEngine c2).detect_anomalies data r :=
  ⟨detectLoop_score_bounds data.columns (List.range (min data.nrows 10)) r h, rfl⟩

/-- Claim C2, witness for the amended statement at a concrete input. -/
theorem detect_anomalies_score_range_and_threshold_free_witness :
    (∀ d ∈ (RNG.mk [1/2]).draws, 0 ≤ d ∧ d < 1) ∧
    ((∀ rec ∈ ((mkEngine {}).detect_anomalies df1 (RNG.mk [1/2])).1,
        5/2 ≤ rec.anomaly_score ∧ rec.anomaly_score < 5) ∧
      (mkEngine {}).detect_anomalies df1 (RNG.mk [1/2]) =
        (mkEngine cfg5).detect_anomalies df1 (RNG.mk [1/2])) :=
  ⟨by norm_num, detect_anomalies_score_range_and_threshold_free {} cfg5 df1
    (RNG.mk [1/2]) (by norm_num)⟩

/-- Claim C3, counterexample: recovering a batch whose only column has zero
valid values raises nothing — `fillna` with a `NaN` mean fills nothing, the
batch is returned unchanged (missing values and all) instead of raising
`UnrecoverableBatchError`. -/
theorem apply_data_recovery_all_missing_column_cex :
    proc0.apply_data_recovery dfBad = .ok dfBad ∧
    proc0.apply_data_recovery dfBad ≠ .error .UnrecoverableBatchError := by
  have h1 : proc0.apply_data_recovery dfBad = .ok dfBad := by
    norm_num [EnterpriseDataProcessor.apply_data_recovery, DataFrame.fillna_mean, fillnaCol,
      colMean, validValues, proc0, dfBad, List.filterMap_cons, List.filterMap_nil, id_eq]
  exact ⟨h1, by rw [h1]; exact fun h => Except.noConfusion h⟩

/-- Claim C3, amended: recovery raises no error; in every column, each
missing value whose column has at least one valid value is replaced by the
mean of that column's valid values, each missing value in a column with zero
valid values stays missing, and present values are returned unchanged. -/
theorem apply_data_recovery_fills_with_column_mean
    (proc : EnterpriseDataProcessor) (df : DataFrame) :
    ∃ df2 : DataFrame, proc.apply_data_recovery df = .ok df2 ∧
      df2.cols.length = df.cols.length ∧
      ∀ i : Nat,
        (df2.cols.getD i ("", [])).1 = (df.cols.getD i ("", [])).1 ∧
        (df2.cols.getD i ("", [])).2.length = (df.cols.getD i ("", [])).2.length ∧
        ∀ j : Nat,
          ((df.cols.getD i ("", [])).2.getD j (some 0) = none →
            validValues (df.cols.getD i ("", [])).2 ≠ [] →
              (df2.cols.getD i ("", [])).2.getD j (some 0) =
                some ((validValues (df.cols.getD i ("", [])).2).sum /
                  ((validValues (df.cols.getD i ("", [])).2).length : ℚ))) ∧
          ((df.cols.getD i ("", [])).2.getD j (some 0) = none →
            validValues (df.cols.getD i ("", [])).2 = [] →
              (df2.cols.getD i ("", [])).2.getD j (some 0) = none) ∧
          (∀ v : ℚ, (df.cols.getD i ("", [])).2.getD j (some 0) = some v →
            (df2.cols.getD i ("", [])).2.getD j (some 0) = some v) := by
  refine ⟨df.fillna_mean, rfl, by simp [DataFrame.fillna_mean], fun i => ?_⟩
  have hcol : (DataFrame.fillna_mean df).cols.getD i ("", []) =
      ((df.cols.getD i ("", [])).1, fillnaCol (df.cols.getD i ("", [])).2) :=
    getD_map_eq _ df.cols i ("", []) ("", []) rfl
  rw [hcol]
  refine ⟨rfl, fillnaCol_length _, fun j => ⟨?_, ?_, ?_⟩⟩
  · intro hnone hvs
    show (fillnaCol (df.cols.getD i ("", [])).2).getD j (some 0) = _
    rw [fillnaCol_getD, hnone]
    show colMean (df.cols.getD i ("", [])).2 = _
    unfold colMean
    rw [if_neg fun h0 => hvs (List.length_eq_zero.mp h0)]
  · intro hnone hvs
    show (fillnaCol (df.cols.getD i ("", [])).2).getD j (some 0) = none
    rw [fillnaCol_getD, hnone]
    show colMean (df.cols.getD i ("", [])).2 = none
    unfold colMean
    rw [if_pos (by rw [hvs]; rfl)]
  · intro v hv
    show (fillnaCol (df.cols.getD i ("", [])).2).getD j (some 0) = some v
    rw [fillnaCol_getD, hv]

/-- Claim C3, witness: the amended statement at a concrete mixed batch. -/
theorem apply_data_recovery_fills_with_column_mean_witness :
    ∃ df2 : DataFrame, proc0.apply_data_recovery dfMix = .ok df2 ∧
      df2.cols.length = dfMix.cols.length ∧
      ∀ i : Nat,
        (df2.cols.getD i ("", [])).1 = (dfMix.cols.getD i ("", [])).1 ∧
        (df2.cols.getD i ("", [])).2.length = (dfMix.cols.getD i ("", [])).2.length ∧
        ∀ j : Nat,
          ((dfMix.cols.getD i ("", [])).2.getD j (some 0) = none →
            validValues (dfMix.cols.getD i ("", [])).2 ≠ [] →
              (df2.cols.getD i ("", [])).2.getD j (some 0) =
                some ((validValues (dfMix.cols.getD i ("", [])).2).sum /
                  ((validValues (dfMix.cols.getD i ("", [])).2).length : ℚ))) ∧
          ((dfMix.cols.getD i ("", [])).2.getD j (some 0) = none →
            validValues (dfMix.cols.getD i ("", [])).2 = [] →
              (df2.cols.getD i ("", [])).2.getD j (some 0) = none) ∧
          (∀ v : ℚ, (dfMix.cols.getD i ("", [])).2.getD j (some 0) = some v →
            (df2.cols.getD i ("", [])).2.getD j (some 0) = some v) :=
  apply_data_recovery_fills_with_column_mean proc0 dfMix

/-- Claim C4, counterexample: with concrete draws the confidence pair of the
single input row is `(9/10, 1/10)`, whose low bound exceeds its high bound —
the two entries are independent draws with no ordering guarantee. -/
theorem predict_batch_confidence_interval_order_cex :
    ((mkEngine {}).predict_batch [[1]] (RNG.mk [0, 0, 9/10, 1/10])).1 =
      .ok ([0], [(9/10, 1/10)]) ∧ ¬ ((9 : ℚ)/10 ≤ 1/10) := by
  constructor
  · norm_num [QuantumEnhancedAnalytics.predict_batch, quantum_transform, RNG.takeDraws,
      RNG.takePairs, RNG.next, mkEngine]
  · norm_num

/-- Claim C4, amended: `predict_batch` always succeeds and returns a
prediction list and a confidence-pair list whose lengths both equal the
input row count (the per-row ordering `low ≤ high` does not hold, see the
counterexample). -/
theorem predict_batch_output_lengths (e : QuantumEnhancedAnalytics)
    (features : List (List ℚ)) (r : RNG) :
    ∃ p ci r2, e.predict_batch features r = (.ok (p, ci), r2) ∧
      p.length = features.length ∧ ci.length = features.length :=
  ⟨_, _, _, rfl, takeDraws_fst_length _ _, takePairs_fst_length _ _⟩

/-- Claim C5, counterexample: a freshly constructed engine has an empty model
cache, yet `predict_batch` succeeds instead of failing with
`ModelNotTrainedError`. -/
theorem predict_batch_untrained_succeeds_cex :
    (mkEngine {}).model_cache = [] ∧
    ((mkEngine {}).predict_batch [[1]] (RNG.mk [])).1 = .ok ([0], [(0, 0)]) ∧
    ((mkEngine {}).predict_batch [[1]] (RNG.mk [])).1 ≠ .error .ModelNotTrainedError := by
  have h1 : ((mkEngine {}).predict_batch [[1]] (RNG.mk [])).1 = .ok ([0], [(0, 0)]) := by
    norm_num [QuantumEnhancedAnalytics.predict_batch, quantum_transform, RNG.takeDraws,
      RNG.takePairs, RNG.next, mkEngine]
  exact ⟨rfl, h1, by rw [h1]; exact fun h => Except.noConfusion h⟩

/-- Claim C5, amended: `predict_batch` never fails (it returns predictions
whether or not any model is cached), and `train_model` leaves the engine —
in particular its fitted-model cache — unchanged: no model is ever cached. -/
theorem predict_batch_total_and_train_cache_unchanged (e : QuantumEnhancedAnalytics)
    (features : List (List ℚ)) (r : RNG) (data : DataFrame)
    (config : ModelConfiguration) (r2 : RNG) :
    (∃ p ci r3, e.predict_batch features r = (.ok (p, ci), r3)) ∧
    (e.train_model data config r2).2.1 = e :=
  ⟨⟨_, _, _, rfl⟩, rfl⟩

/-- Claim C6, counterexample: training on the empty dataset succeeds and
returns metrics instead of failing with `InvalidDatasetError` — the body
performs no input validation. -/
theorem train_model_empty_dataset_succeeds_cex :
    ((mkEngine {}).train_model (DataFrame.mk []) {} (RNG.mk [])).1 =
      .ok ⟨23/25, 89/100, 22/25, 9/10, 93/100, 23/20, 21/10⟩ ∧
    ((mkEngine {}).train_model (DataFrame.mk []) {} (RNG.mk [])).1 ≠
      .error .InvalidDatasetError := by
  have h1 : ((mkEngine {}).train_model (DataFrame.mk []) {} (RNG.mk [])).1 =
      .ok ⟨23/25, 89/100, 22/25, 9/10, 93/100, 23/20, 21/10⟩ := by
    norm_num [QuantumEnhancedAnalytics.train_model, preprocess_data, neural_architecture_search,
      quantum_feature_engineering, train_ensemble_models, RNG.uniform, RNG.randint, RNG.next,
      RNG.takeMatrix, RNG.takeDraws, mkEngine, DataFrame.nrows]
  exact ⟨h1, by rw [h1]; exact fun h => Except.noConfusion h⟩

/-- Claim C6, amended: `train_model` succeeds and returns training metrics on
every input dataset — including empty ones and ones with no numeric column —
and never raises `InvalidDatasetError`. -/
theorem train_model_always_returns_metrics (e : QuantumEnhancedAnalytics)
    (data : DataFrame) (config : ModelConfiguration) (r : RNG) :
    ∃ m r2, e.train_model data config r = (.ok m, e, r2) :=
  ⟨_, _, rfl⟩

/-- Claim C7: recommendation generation is a pure function of the anomaly
list: it always starts with the four fixed baseline strings, contains the
urgent string exactly when the anomaly count exceeds 5 (so 5 strings in that
case, 4 otherwise); in particular for a 6-anomaly list it returns exactly the
five strings including the urgent one. -/
theorem generate_ai_recommendations_baseline_and_urgent :
    (∀ anomalies : List AnomalyRecord,
        ((generate_ai_recommendations anomalies).length =
          if 5 < anomalies.length then 5 else 4) ∧
        ((generate_ai_recommendations anomalies).take 4 =
          ["Implement enhanced monitoring for high-risk transaction patterns",
           "Deploy additional quantum circuits for improved processing capacity",
           "Optimize neural architecture for reduced latency in real-time predictions",
           "Strengthen anomaly detection thresholds based on current threat landscape"]) ∧
        (("URGENT: Investigate potential security breach - anomaly count exceeds threshold" ∈
            generate_ai_recommendations anomalies) ↔ 5 < anomalies.length)) ∧
    generate_ai_recommendations (List.replicate 6 arec0) =
      ["Implement enhanced monitoring for high-risk transaction patterns",
       "Deploy additional quantum circuits for improved processing capacity",
       "Optimize neural architecture for reduced latency in real-time predictions",
       "Strengthen anomaly detection thresholds based on current threat landscape",
       "URGENT: Investigate potential security breach - anomaly count exceeds threshold"] := by
  constructor
  · intro as
    by_cases h : 5 < as.length
    · refine ⟨?_, ?_, ?_⟩ <;> simp [generate_ai_recommendations, h]
    · refine ⟨?_, ?_, ?_⟩ <;> simp [generate_ai_recommendations, h]
  · norm_num [generate_ai_recommendations]

/-- Claim C7, witness: the length formula evaluated on a concrete 6-anomaly
list. -/
theorem generate_ai_recommendations_baseline_and_urgent_witness :
    (generate_ai_recommendations (List.replicate 6 arec0)).length =
      if 5 < (List.replicate 6 arec0).length then 5 else 4 :=
  (generate_ai_recommendations_baseline_and_urgent.1 (List.replicate 6 arec0)).1

/-- Claim C8: recovery is idempotent — recovering a batch that contains no
missing value returns it unchanged. -/
theorem apply_data_recovery_idempotent_on_valid (proc : EnterpriseDataProcessor)
    (df : DataFrame) (h : ∀ c ∈ df.cols, ∀ x ∈ c.2, x ≠ none) :
    proc.apply_data_recovery df = .ok df := by
  unfold EnterpriseDataProcessor.apply_data_recovery
  congr 1
  unfold DataFrame.fillna_mean
  cases df with
  | mk cols =>
    congr 1
    apply map_id_of_mem
    intro c hc
    cases c with
    | mk name col =>
      exact congrArg (Prod.mk name) (fillnaCol_of_all_some col (h (name, col) hc))

/-- Claim C8, witness: a concrete batch with no missing values is returned
unchanged. -/
theorem apply_data_recovery_idempotent_on_valid_witness :
    (∀ c ∈ dfGood.cols, ∀ x ∈ c.2, x ≠ none) ∧
    proc0.apply_data_recovery dfGood = .ok dfGood :=
  ⟨by simp [dfGood], apply_data_recovery_idempotent_on_valid proc0 dfGood (by simp [dfGood])⟩

/-- Claim C9: `detect_anomalies` returns at most 10 records, and every
returned record's row index is below `min(len(dataset), 10)`. -/
theorem detect_anomalies_count_and_index_bounds (e : QuantumEnhancedAnalytics)
    (data : DataFrame) (r : RNG) :
    (e.detect_anomalies data r).1.length ≤ 10 ∧
    ∀ rec ∈ (e.detect_anomalies data r).1, rec.index < min data.nrows 10 := by
  constructor
  · have h1 := detectLoop_length_le data.columns (List.range (min data.nrows 10)) r
    rw [List.length_range] at h1
    exact le_trans h1 (min_le_right _ _)
  · intro rec hrec
    exact List.mem_range.mp
      (detectLoop_mem_index data.columns (List.range (min data.nrows 10)) r rec hrec)

/-- Claim C9, witness: the bounds at a concrete engine, frame and stream. -/
theorem detect_anomalies_count_and_index_bounds_witness :
    ((mkEngine {}).detect_anomalies df1 (RNG.mk [])).1.length ≤ 10 ∧
    ∀ rec ∈ ((mkEngine {}).detect_anomalies df1 (RNG.mk [])).1,
      rec.index < min df1.nrows 10 :=
  detect_anomalies_count_and_index_bounds (mkEngine {}) df1 (RNG.mk [])

/-- Claim C10: `run_comprehensive_analysis` never modifies the orchestrator:
the state returned alongside the result — on the rejection path and on the
report path alike — is the input state, so `system_status` (written only by
the constructor and `initialize_system` in the source) is preserved by every
run. -/
theorem run_comprehensive_analysis_preserves_state (o : AIAnalyticsOrchestrator)
    (ds : String) (r : RNG) :
    (o.run_comprehensive_analysis ds r).2.1 = o := by
  unfold AIAnalyticsOrchestrator.run_comprehensive_analysis
  split
  · rfl
  · rfl
